import Mathlib

/-!
Shallow embedding of src/app.py (voice-studio): the filename gatekeeper,
the ElevenLabs synthesis path, the transcription and cloning routes, the
download route, the temporary-file janitor and the request size limit.
Strings are modelled as lists of characters; each route is a pure function
from the request and an environment describing the external services to the
JSON envelope plus a trace of its observable side effects.
-/

/-- Python str.strip with no argument: remove leading and trailing whitespace. -/
def strip (s : List Char) : List Char :=
  ((s.dropWhile Char.isWhitespace).reverse.dropWhile Char.isWhitespace).reverse

/-- The characters strictly after the last occurrence of c in s, and all of s
when c does not occur: this is Python s.rsplit(c, 1)[1] whenever c occurs
(the only situation in which app.py evaluates that expression). -/
def afterLast (c : Char) : List Char → List Char
  | [] => []
  | x :: xs => if c ∈ xs then afterLast c xs else if x = c then xs else x :: xs

/-- The characters strictly before the last occurrence of c in s, and all of s
when c does not occur: Python s.rsplit(c, 1)[0]. -/
def beforeLast (c : Char) : List Char → List Char
  | [] => []
  | x :: xs => if c ∈ xs then x :: beforeLast c xs else if x = c then [] else x :: xs

/-- Splitting a string at every occurrence of c, following the specification
wording about dot-separated segments of a filename. -/
def splitSeg (c : Char) : List Char → List (List Char)
  | [] => [[]]
  | x :: xs =>
      let r := splitSeg c xs
      if x = c then [] :: r else (x :: r.headD []) :: r.tail

/-- app.py line 72: the set of allowed upload extensions. -/
def ALLOWED_EXTENSIONS : List (List Char) :=
  ["wav".toList, "mp3".toList, "ogg".toList, "m4a".toList, "flac".toList]

/-- app.py lines 74-75: a dot occurs in the filename and the lowercased
segment after the last dot is an allowed extension. -/
def allowed_file (filename : List Char) : Bool :=
  decide ('.' ∈ filename) &&
    decide ((afterLast '.' filename).map Char.toLower ∈ ALLOWED_EXTENSIONS)

/-- A directory entry: a name, a creation time and whether it is a regular
file (os.path.isfile). -/
structure FSEntry where
  name : List Char
  ctime : Int
  isfile : Bool
deriving DecidableEq

/-- app.py line 1142: the age of an entry at the given time. -/
def file_age (current_time : Int) (e : FSEntry) : Int := current_time - e.ctime

/-- app.py lines 1139-1148 restricted to one directory: every regular file
strictly older than 3600 seconds is removed, everything else stays. -/
def cleanupFolder (current_time : Int) (folder : List FSEntry) : List FSEntry :=
  folder.filter (fun e => !(e.isfile && decide (file_age current_time e > 3600)))

/-- The two directories created at app.py lines 32-35. -/
structure ArtifactStore where
  uploads : List FSEntry
  output : List FSEntry
deriving DecidableEq

/-- app.py lines 1133-1148: one invocation of cleanup_old_files sweeps both
directories at the current time. -/
def cleanup_old_files (current_time : Int) (s : ArtifactStore) : ArtifactStore :=
  { uploads := cleanupFolder current_time s.uploads
    output := cleanupFolder current_time s.output }

/-- The observable actions of the cleanup thread body. -/
inductive ThreadEvent where
  | sleep : Nat → ThreadEvent
  | runCleanup : ThreadEvent
deriving DecidableEq

/-- app.py line 1151: the thread target is a lambda whose body is the list
literal evaluating time.sleep(3600) and then cleanup_old_files() exactly once;
after that the lambda returns and the thread terminates. -/
def cleanup_thread_body : List ThreadEvent :=
  [ThreadEvent.sleep 3600, ThreadEvent.runCleanup]

/-- Absolute times, in seconds after thread start, at which a body of events
performs a sweep. -/
def sweepTimesFrom : Nat → List ThreadEvent → List Nat
  | _, [] => []
  | t, ThreadEvent.sleep s :: rest => sweepTimesFrom (t + s) rest
  | t, ThreadEvent.runCleanup :: rest => t :: sweepTimesFrom t rest

/-- Every time at which the cleanup thread sweeps, over the whole lifetime of
the process. -/
def sweepTimes : List Nat := sweepTimesFrom 0 cleanup_thread_body

/-- The environment of one ElevenLabsAPI.text_to_speech call: the HTTP status
the provider answers, the uuid-derived artifact name the code would pick on
success, and the parsed detail message of a non-200 body (none when that body
is not JSON, in which case the except around response.json leaves only the
status in the message). -/
structure ProviderEnv where
  status : Nat
  genName : List Char
  detailMsg : Option (List Char)
deriving DecidableEq

/-- The trace of one ElevenLabsAPI.text_to_speech call: HTTP requests made,
texts posted, files written to the output folder, printed log lines and the
returned filepath (none when an error was caught). -/
structure TTSOutcome where
  httpCalls : Nat
  posted : List (List Char)
  outputWrites : List (List Char)
  logs : List (List Char)
  result : Option (List Char)
deriving DecidableEq

/-- app.py lines 116-157: a missing key raises before any request and is
caught; a 200 answer writes the artifact and returns its path; any other
status raises after the single post and is caught, logging a message. -/
def text_to_speech (api_key : Option (List Char)) (env : ProviderEnv)
    (text : List Char) : TTSOutcome :=
  match api_key with
  | none =>
      { httpCalls := 0, posted := [], outputWrites := []
        logs := ["Error in ElevenLabs TTS: ElevenLabs API key not provided".toList]
        result := none }
  | some _ =>
      if env.status = 200 then
        { httpCalls := 1, posted := [text], outputWrites := [env.genName]
          logs := [], result := some env.genName }
      else
        { httpCalls := 1, posted := [text], outputWrites := []
          logs := [("Error in ElevenLabs TTS: ElevenLabs API error: ".toList
                     ++ (toString env.status).toList
                     ++ (match env.detailMsg with
                         | some m => " - ".toList ++ m
                         | none => []))]
          result := none }

/-- A submitted form or JSON body: a list of field-value pairs. -/
abbrev FormData := List (List Char × List Char)

/-- request.form.get(key, default). -/
def formGet (form : FormData) (key dflt : List Char) : List Char :=
  match form.lookup key with
  | some v => v
  | none => dflt

/-- Whether the float conversion of an optional form field succeeds: the
Python default 0.5 is already a float, so conversion can only fail when the
field is present, and floatOk abstracts float() acceptance of a raw string
(the routes branch only on acceptance, never on the value). -/
def floatFieldOk (floatOk : List Char → Bool) (form : FormData)
    (key : List Char) : Bool :=
  match form.lookup key with
  | some v => floatOk v
  | none => true

/-- The JSON envelope and side-effect trace of one synthesis route call. -/
structure RouteOutcome where
  success : Bool
  error : Option (List Char)
  filename : Option (List Char)
  httpCalls : Nat
  posted : List (List Char)
  outputWrites : List (List Char)
  logs : List (List Char)
deriving DecidableEq

/-- app.py lines 991-1015: the generate_speech route; the three float
conversions run before the emptiness checks and a failure there is caught by
the handler except, stripped empty text and missing voice are refused, and
otherwise the single ElevenLabs call decides the envelope. -/
def generate_speech (floatOk : List Char → Bool) (api_key : Option (List Char))
    (env : ProviderEnv) (form : FormData) : RouteOutcome :=
  let text := strip (formGet form "text".toList [])
  let voice_id := formGet form "voice_id".toList []
  if !(floatFieldOk floatOk form "stability".toList
        && floatFieldOk floatOk form "similarity".toList
        && floatFieldOk floatOk form "style".toList) then
    { success := false, error := some "could not convert string to float".toList
      filename := none, httpCalls := 0, posted := [], outputWrites := [], logs := [] }
  else if text.isEmpty then
    { success := false, error := some "No text provided".toList
      filename := none, httpCalls := 0, posted := [], outputWrites := [], logs := [] }
  else if voice_id.isEmpty then
    { success := false, error := some "No voice selected".toList
      filename := none, httpCalls := 0, posted := [], outputWrites := [], logs := [] }
  else
    let t := text_to_speech api_key env text
    match t.result with
    | some fn =>
        { success := true, error := none, filename := some fn
          httpCalls := t.httpCalls, posted := t.posted
          outputWrites := t.outputWrites, logs := t.logs }
    | none =>
        { success := false, error := some "Failed to generate speech".toList
          filename := none, httpCalls := t.httpCalls, posted := t.posted
          outputWrites := t.outputWrites, logs := t.logs }

/-- app.py lines 1049-1068: the test_voice route; a missing text field is
replaced by a default but a present empty text is forwarded unchecked, and
only a missing voice id is refused. -/
def test_voice (api_key : Option (List Char)) (env : ProviderEnv)
    (body : FormData) : RouteOutcome :=
  let text := formGet body "text".toList "Test voice with ElevenLabs AI".toList
  let voice_id := formGet body "voice_id".toList []
  if voice_id.isEmpty then
    { success := false, error := some "No voice ID provided".toList
      filename := none, httpCalls := 0, posted := [], outputWrites := [], logs := [] }
  else
    let t := text_to_speech api_key env text
    match t.result with
    | some fn =>
        { success := true, error := none, filename := some fn
          httpCalls := t.httpCalls, posted := t.posted
          outputWrites := t.outputWrites, logs := t.logs }
    | none =>
        { success := false, error := some "Failed to generate test audio".toList
          filename := none, httpCalls := t.httpCalls, posted := t.posted
          outputWrites := t.outputWrites, logs := t.logs }

/-- The environment of one TTSEngine.speech_to_text call: whether the pydub
decode and wav export succeed, and the Google recognition answer (none when
recognize_google raises, the only way it fails). -/
structure EngineEnv where
  convertOk : Bool
  recognized : Option (List Char)
deriving DecidableEq

/-- The trace of one TTSEngine.speech_to_text call: the returned text (none
when a raised error was caught), the upload-folder files the call leaves
behind, and how many recognition calls were made. -/
structure STTEngineOutcome where
  result : Option (List Char)
  uploadLeft : List (List Char)
  recognizerCalls : Nat
deriving DecidableEq

/-- app.py line 221: the name of the intermediate wav that
TTSEngine.speech_to_text writes next to the uploaded file. -/
def wavName (filepath : List Char) : List Char :=
  beforeLast '.' filepath ++ "_converted.wav".toList

/-- app.py lines 214-235: a pydub failure raises before the wav exists; a
recognition failure raises after the wav was written and skips the removal of
the wav, which therefore stays behind; on success the wav is removed and the
text returned. All raises are caught by the except of this method. -/
def engine_speech_to_text (env : EngineEnv) (filepath : List Char) :
    STTEngineOutcome :=
  if !env.convertOk then
    { result := none, uploadLeft := [], recognizerCalls := 0 }
  else
    match env.recognized with
    | some t => { result := some t, uploadLeft := [], recognizerCalls := 1 }
    | none => { result := none, uploadLeft := [wavName filepath], recognizerCalls := 1 }

/-- The JSON envelope and side-effect trace of one speech_to_text route call:
saved lists every file the handler wrote into the upload folder and uploadLeft
every upload-folder file still present when the handler returns. -/
structure STTRouteOutcome where
  success : Bool
  text : Option (List Char)
  error : Option (List Char)
  saved : List (List Char)
  uploadLeft : List (List Char)
  recognizerCalls : Nat
deriving DecidableEq

/-- app.py lines 1017-1047: the speech_to_text route; secure abstracts
werkzeug secure_filename and uuidHex the uuid4 hex prefix. The saved upload is
removed unconditionally at line 1037 because the engine call catches every
error, and a falsy (empty or absent) recognition answer is refused. -/
def speech_to_text_route (secure : List Char → List Char) (uuidHex : List Char)
    (env : EngineEnv) (audio_file : Option (List Char)) : STTRouteOutcome :=
  match audio_file with
  | none =>
      { success := false, text := none, error := some "No audio file provided".toList
        saved := [], uploadLeft := [], recognizerCalls := 0 }
  | some fname =>
      if fname.isEmpty then
        { success := false, text := none, error := some "No file selected".toList
          saved := [], uploadLeft := [], recognizerCalls := 0 }
      else if allowed_file fname then
        let unique := uuidHex ++ "_".toList ++ secure fname
        let eo := engine_speech_to_text env unique
        let txt := eo.result.getD []
        if txt.isEmpty then
          { success := false, text := none
            error := some "Could not recognize speech".toList
            saved := [unique], uploadLeft := eo.uploadLeft
            recognizerCalls := eo.recognizerCalls }
        else
          { success := true, text := some txt, error := none
            saved := [unique], uploadLeft := eo.uploadLeft
            recognizerCalls := eo.recognizerCalls }
      else
        { success := false, text := none, error := some "Invalid file type".toList
          saved := [], uploadLeft := [], recognizerCalls := 0 }

/-- The environment of one cloning request: whether the pydub re-encode to mp3
succeeds, and the provider voice id (none when ElevenLabsAPI.clone_voice
caught a missing key, a non-200 answer or an answer without a voice_id). -/
structure CloneEnv where
  convertOk : Bool
  cloneResult : Option (List Char)
deriving DecidableEq

/-- The JSON envelope and side-effect trace of one clone_voice route call. -/
structure CloneRouteOutcome where
  success : Bool
  voice_id : Option (List Char)
  error : Option (List Char)
  saved : List (List Char)
  uploadLeft : List (List Char)
  cloneCalls : Nat
deriving DecidableEq

/-- app.py lines 1070-1119: the clone_voice route. When the saved name does
not end in .mp3 the handler re-encodes it; a raise there is caught only by the
handler-level except, so the removal at line 1104 is skipped and the saved
upload stays behind. On every other path both the upload and the re-encoded
mp3 are removed before returning, whatever the cloning result. -/
def clone_voice_route (secure : List Char → List Char) (uuidHex : List Char)
    (env : CloneEnv) (clone_audio_file : Option (List Char))
    (voice_name voice_description : List Char) : CloneRouteOutcome :=
  match clone_audio_file with
  | none =>
      { success := false, voice_id := none
        error := some "No audio file provided".toList
        saved := [], uploadLeft := [], cloneCalls := 0 }
  | some fname =>
      if fname.isEmpty then
        { success := false, voice_id := none
          error := some "No file selected".toList
          saved := [], uploadLeft := [], cloneCalls := 0 }
      else if (strip voice_name).isEmpty then
        { success := false, voice_id := none
          error := some "Voice name is required".toList
          saved := [], uploadLeft := [], cloneCalls := 0 }
      else if allowed_file fname then
        let unique := uuidHex ++ "_".toList ++ secure fname
        if (".mp3".toList).isSuffixOf unique then
          let vid := env.cloneResult.getD []
          if vid.isEmpty then
            { success := false, voice_id := none
              error := some "Voice cloning failed".toList
              saved := [unique], uploadLeft := [], cloneCalls := 1 }
          else
            { success := true, voice_id := some vid, error := none
              saved := [unique], uploadLeft := [], cloneCalls := 1 }
        else if !env.convertOk then
          { success := false, voice_id := none
            error := some "audio conversion error".toList
            saved := [unique], uploadLeft := [unique], cloneCalls := 0 }
        else
          let mp3 := beforeLast '.' unique ++ ".mp3".toList
          let vid := env.cloneResult.getD []
          if vid.isEmpty then
            { success := false, voice_id := none
              error := some "Voice cloning failed".toList
              saved := [unique, mp3], uploadLeft := [], cloneCalls := 1 }
          else
            { success := true, voice_id := some vid, error := none
              saved := [unique, mp3], uploadLeft := [], cloneCalls := 1 }
      else
        { success := false, voice_id := none
          error := some "Invalid file type".toList
          saved := [], uploadLeft := [], cloneCalls := 0 }

/-- app.py lines 1121-1130: the download route on the path output/<filename>,
with the output directory given as its listing, pairing each entry name with
whether it is a regular file. os.path.exists holds for the dot segments . and
.. (they resolve to the output directory itself and to its parent, which the
route matcher lets through since it only excludes slashes) and for every
listed name; send_file streams a regular file with 200 but raises on a
directory, which the handler except turns into a 500 answer; a path that does
not exist is answered File not found with 404. The pair is the HTTP status
together with the streamed artifact. -/
def download_file (outputFolder : List (List Char × Bool))
    (filename : List Char) : Nat × Option (List Char) :=
  if filename = ".".toList ∨ filename = "..".toList then
    (500, none)
  else
    match outputFolder.lookup filename with
    | some true => (200, some filename)
    | some false => (500, none)
    | none => (404, none)

/-- app.py line 29: the configured request body limit in bytes. -/
def MAX_CONTENT_LENGTH : Nat := 16 * 1024 * 1024

/-- The werkzeug admission rule activated by setting MAX_CONTENT_LENGTH: a
request whose body is strictly larger than the limit is refused with 413
before the route handler runs, every other request reaches its handler. -/
def serveWithLimit {α : Type} (contentLength : Nat) (handler : α) : Option α :=
  if contentLength ≤ MAX_CONTENT_LENGTH then some handler else none

/-! ## Lemmas about dot-splitting -/

theorem splitSeg_ne_nil (c : Char) (s : List Char) : splitSeg c s ≠ [] := by
  cases s with
  | nil => simp [splitSeg]
  | cons x xs => simp only [splitSeg]; split <;> simp

theorem splitSeg_of_not_mem {c : Char} {s : List Char} (h : c ∉ s) :
    splitSeg c s = [s] := by
  induction s with
  | nil => rfl
  | cons x xs ih =>
      simp only [List.mem_cons, not_or] at h
      have hx : ¬ x = c := fun he => h.1 he.symm
      simp [splitSeg, hx, ih h.2]

theorem two_le_splitSeg_length {c : Char} {s : List Char} (h : c ∈ s) :
    2 ≤ (splitSeg c s).length := by
  induction s with
  | nil => cases h
  | cons x xs ih =>
      by_cases hx : x = c
      · have h1 : splitSeg c xs ≠ [] := splitSeg_ne_nil c xs
        cases hsp : splitSeg c xs with
        | nil => exact absurd hsp h1
        | cons a l => simp [splitSeg, hx, hsp]
      · have hmem : c ∈ xs := by
          rcases List.mem_cons.mp h with h1 | h2
          · exact absurd h1.symm hx
          · exact h2
        cases hsp : splitSeg c xs with
        | nil => exact absurd hsp (splitSeg_ne_nil c xs)
        | cons a l =>
            have h2 := ih hmem
            rw [hsp] at h2
            simp only [List.length_cons] at h2
            simp [splitSeg, hx, hsp]
            omega

theorem getLastD_irrel {l : List (List Char)} (h : l ≠ []) (a b : List Char) :
    l.getLastD a = l.getLastD b := by
  rw [List.getLastD_eq_getLast?, List.getLastD_eq_getLast?]
  cases hx : l.getLast? with
  | none => exact absurd (List.getLast?_eq_none_iff.mp hx) h
  | some v => rfl

theorem afterLast_eq_splitSeg (c : Char) (s : List Char) :
    afterLast c s = (splitSeg c s).getLastD [] := by
  induction s with
  | nil => rfl
  | cons x xs ih =>
      by_cases hm : c ∈ xs
      · have lhs : afterLast c (x :: xs) = afterLast c xs := by
          simp [afterLast, hm]
        by_cases hx : x = c
        · have rhs : splitSeg c (x :: xs) = [] :: splitSeg c xs := by
            simp [splitSeg, hx]
          rw [lhs, ih, rhs]
          cases hsp : splitSeg c xs with
          | nil => exact absurd hsp (splitSeg_ne_nil c xs)
          | cons a l =>
              rw [List.getLastD_eq_getLast?, List.getLastD_eq_getLast?,
                List.getLast?_cons_cons]
        · cases hsp : splitSeg c xs with
          | nil => exact absurd hsp (splitSeg_ne_nil c xs)
          | cons a l =>
              have hl : l ≠ [] := by
                have h2 := two_le_splitSeg_length hm
                rw [hsp] at h2
                cases l with
                | nil => simp at h2
                | cons b m => simp
              have rhs : splitSeg c (x :: xs) = (x :: a) :: l := by
                simp [splitSeg, hx, hsp]
              rw [lhs, ih, hsp, rhs]
              cases l with
              | nil => exact absurd rfl hl
              | cons b m =>
                  rw [List.getLastD_eq_getLast?, List.getLastD_eq_getLast?,
                    List.getLast?_cons_cons, List.getLast?_cons_cons]
      · by_cases hx : x = c
        · simp [afterLast, splitSeg, hm, hx, splitSeg_of_not_mem hm]
        · simp [afterLast, splitSeg, hm, hx, splitSeg_of_not_mem hm]

/-- Claim C1: allowed_file accepts a filename exactly when it contains a dot
and the lowercased last dot-separated segment is one of the five allowed
extensions; in particular a filename without a dot, or whose last segment
lowercases to anything else, is rejected. -/
theorem allowed_file_spec (f : List Char) :
    allowed_file f = true ↔
      '.' ∈ f ∧
        ((splitSeg '.' f).getLastD []).map Char.toLower ∈ ALLOWED_EXTENSIONS := by
  unfold allowed_file
  rw [← afterLast_eq_splitSeg]
  simp

/-! ## The cleanup thread and the sweep -/

/-- Claim C2 (refuted, code bug): the cleanup thread body sweeps exactly once,
3600 seconds after startup, and a regular file created in a folder 1800
seconds after startup survives every sweep the thread will ever perform, so it
is never reclaimed. -/
theorem cleanup_thread_single_sweep :
    sweepTimes = [3600] ∧
    sweepTimes.foldl (fun fs t => cleanupFolder (Int.ofNat t) fs)
        [{ name := "late.mp3".toList, ctime := 1800, isfile := true }]
      = [{ name := "late.mp3".toList, ctime := 1800, isfile := true }] :=
  ⟨rfl, by decide⟩

/-- Claim C3: one invocation of cleanup_old_files keeps exactly the entries
that are not regular files strictly older than 3600 seconds, in both the
upload folder and the output folder. -/
theorem cleanup_old_files_exact (now : Int) (s : ArtifactStore) (e : FSEntry) :
    (e ∈ (cleanup_old_files now s).uploads ↔
        e ∈ s.uploads ∧ ¬(e.isfile = true ∧ file_age now e > 3600)) ∧
    (e ∈ (cleanup_old_files now s).output ↔
        e ∈ s.output ∧ ¬(e.isfile = true ∧ file_age now e > 3600)) := by
  constructor <;>
    · simp only [cleanup_old_files, cleanupFolder, List.mem_filter,
        Bool.not_eq_true', Bool.and_eq_false_iff, decide_eq_false_iff_not]
      constructor
      · rintro ⟨h1, h2⟩
        refine ⟨h1, ?_⟩
        rintro ⟨hf, ha⟩
        rcases h2 with h2 | h2
        · rw [hf] at h2; cases h2
        · exact h2 ha
      · rintro ⟨h1, h2⟩
        refine ⟨h1, ?_⟩
        by_cases hf : e.isfile = true
        · right; intro ha; exact h2 ⟨hf, ha⟩
        · left; exact Bool.not_eq_true e.isfile ▸ hf

/-! ## Synthesis routes: empty text and provider failures -/

/-- Claim C4 counterexample: a test_voice request whose text field is present
and empty is not rejected; it reaches the provider with one HTTP request that
posts the empty text. -/
theorem test_voice_empty_text_reaches_provider :
    (test_voice (some "k".toList)
        { status := 200, genName := "elevenlabs_ab12cd34.mp3".toList, detailMsg := none }
        [("text".toList, []), ("voice_id".toList, "v".toList)]).httpCalls = 1 ∧
    (test_voice (some "k".toList)
        { status := 200, genName := "elevenlabs_ab12cd34.mp3".toList, detailMsg := none }
        [("text".toList, []), ("voice_id".toList, "v".toList)]).posted = [[]] :=
  ⟨rfl, rfl⟩

/-- Claim C4 (amended): on the generate_speech route, a request whose text
field strips to the empty string is answered success false before any provider
call: no HTTP request is made, nothing is posted and nothing is written. -/
theorem generate_speech_empty_text_rejected (floatOk : List Char → Bool)
    (api_key : Option (List Char)) (env : ProviderEnv) (form : FormData)
    (h : strip (formGet form "text".toList []) = []) :
    (generate_speech floatOk api_key env form).success = false ∧
    (generate_speech floatOk api_key env form).httpCalls = 0 ∧
    (generate_speech floatOk api_key env form).posted = [] ∧
    (generate_speech floatOk api_key env form).outputWrites = [] := by
  simp only [generate_speech, h]
  split
  · exact ⟨rfl, rfl, rfl, rfl⟩
  · simp

/-- Witness for the amended claim C4 at a concrete whitespace-only request. -/
theorem generate_speech_empty_text_rejected_witness :
    (generate_speech (fun _ => true) (some "k".toList)
        { status := 200, genName := "out.mp3".toList, detailMsg := none }
        [("text".toList, "  ".toList), ("voice_id".toList, "v".toList)]).success
      = false ∧
    (generate_speech (fun _ => true) (some "k".toList)
        { status := 200, genName := "out.mp3".toList, detailMsg := none }
        [("text".toList, "  ".toList), ("voice_id".toList, "v".toList)]).httpCalls
      = 0 ∧
    (generate_speech (fun _ => true) (some "k".toList)
        { status := 200, genName := "out.mp3".toList, detailMsg := none }
        [("text".toList, "  ".toList), ("voice_id".toList, "v".toList)]).posted
      = [] ∧
    (generate_speech (fun _ => true) (some "k".toList)
        { status := 200, genName := "out.mp3".toList, detailMsg := none }
        [("text".toList, "  ".toList), ("voice_id".toList, "v".toList)]).outputWrites
      = [] :=
  generate_speech_empty_text_rejected _ _ _ _ (by decide)

/-- Claim C5: a transcription request whose filename fails the extension check
is refused with success false, nothing is saved into the upload folder,
nothing is left there and no recognition call is made. -/
theorem speech_to_text_rejects_bad_extension (secure : List Char → List Char)
    (uuidHex : List Char) (env : EngineEnv) (fname : List Char)
    (h : allowed_file fname = false) :
    (speech_to_text_route secure uuidHex env (some fname)).success = false ∧
    (speech_to_text_route secure uuidHex env (some fname)).saved = [] ∧
    (speech_to_text_route secure uuidHex env (some fname)).uploadLeft = [] ∧
    (speech_to_text_route secure uuidHex env (some fname)).recognizerCalls = 0 := by
  simp only [speech_to_text_route]
  by_cases he : fname.isEmpty
  · simp [he]
  · simp [he, h]

/-- Witness for claim C5: a txt upload is refused without recognition. -/
theorem speech_to_text_rejects_bad_extension_witness :
    (speech_to_text_route (fun s => s) "ab12cd34".toList
        { convertOk := true, recognized := none }
        (some "notes.txt".toList)).success = false ∧
    (speech_to_text_route (fun s => s) "ab12cd34".toList
        { convertOk := true, recognized := none }
        (some "notes.txt".toList)).saved = [] ∧
    (speech_to_text_route (fun s => s) "ab12cd34".toList
        { convertOk := true, recognized := none }
        (some "notes.txt".toList)).uploadLeft = [] ∧
    (speech_to_text_route (fun s => s) "ab12cd34".toList
        { convertOk := true, recognized := none }
        (some "notes.txt".toList)).recognizerCalls = 0 :=
  speech_to_text_rejects_bad_extension _ _ _ _ (by decide)

/-- Claim C6: when the API key is missing or the provider answers a non-200
status, the synthesis call returns an absent result after logging a message,
writes no artifact and makes at most one HTTP request (no retry), and the
generate_speech route answers success false with a non-empty error message,
writes no artifact and also makes at most one HTTP request. -/
theorem provider_failure_no_artifact (floatOk : List Char → Bool)
    (api_key : Option (List Char)) (env : ProviderEnv) (form : FormData)
    (text : List Char)
    (hfail : api_key = none ∨ ¬ env.status = 200) :
    (text_to_speech api_key env text).result = none ∧
    (text_to_speech api_key env text).outputWrites = [] ∧
    (text_to_speech api_key env text).logs ≠ [] ∧
    (text_to_speech api_key env text).httpCalls ≤ 1 ∧
    (generate_speech floatOk api_key env form).success = false ∧
    (∃ msg, (generate_speech floatOk api_key env form).error = some msg ∧ msg ≠ []) ∧
    (generate_speech floatOk api_key env form).outputWrites = [] ∧
    (generate_speech floatOk api_key env form).httpCalls ≤ 1 := by
  have htts : ∀ txt : List Char, (text_to_speech api_key env txt).result = none ∧
      (text_to_speech api_key env txt).outputWrites = [] ∧
      (text_to_speech api_key env txt).logs ≠ [] ∧
      (text_to_speech api_key env txt).httpCalls ≤ 1 := by
    intro txt
    rcases hfail with hk | hs
    · subst hk; simp [text_to_speech]
    · cases api_key with
      | none => simp [text_to_speech]
      | some k => simp [text_to_speech, hs]
  obtain ⟨h1, h2, h3, h4⟩ := htts text
  refine ⟨h1, h2, h3, h4, ?_⟩
  obtain ⟨hr, hw, _, hc⟩ := htts (strip (formGet form "text".toList []))
  simp only [generate_speech, hr]
  split
  · exact ⟨rfl, ⟨_, rfl, by decide⟩, rfl, by simp⟩
  · split
    · exact ⟨rfl, ⟨_, rfl, by decide⟩, rfl, by simp⟩
    · split
      · exact ⟨rfl, ⟨_, rfl, by decide⟩, rfl, by simp⟩
      · exact ⟨rfl, ⟨_, rfl, by decide⟩, hw, hc⟩

/-- Witness for claim C6: a concrete 503 answer on a well-formed request. -/
theorem provider_failure_no_artifact_witness :
    (text_to_speech (some "k".toList)
        { status := 503, genName := "g.mp3".toList, detailMsg := none }
        "hello".toList).result = none ∧
    (text_to_speech (some "k".toList)
        { status := 503, genName := "g.mp3".toList, detailMsg := none }
        "hello".toList).outputWrites = [] ∧
    (text_to_speech (some "k".toList)
        { status := 503, genName := "g.mp3".toList, detailMsg := none }
        "hello".toList).logs ≠ [] ∧
    (text_to_speech (some "k".toList)
        { status := 503, genName := "g.mp3".toList, detailMsg := none }
        "hello".toList).httpCalls ≤ 1 ∧
    (generate_speech (fun _ => true) (some "k".toList)
        { status := 503, genName := "g.mp3".toList, detailMsg := none }
        [("text".toList, "hello".toList), ("voice_id".toList, "v".toList)]).success
      = false ∧
    (∃ msg, (generate_speech (fun _ => true) (some "k".toList)
        { status := 503, genName := "g.mp3".toList, detailMsg := none }
        [("text".toList, "hello".toList), ("voice_id".toList, "v".toList)]).error
      = some msg ∧ msg ≠ []) ∧
    (generate_speech (fun _ => true) (some "k".toList)
        { status := 503, genName := "g.mp3".toList, detailMsg := none }
        [("text".toList, "hello".toList), ("voice_id".toList, "v".toList)]).outputWrites
      = [] ∧
    (generate_speech (fun _ => true) (some "k".toList)
        { status := 503, genName := "g.mp3".toList, detailMsg := none }
        [("text".toList, "hello".toList), ("voice_id".toList, "v".toList)]).httpCalls
      ≤ 1 :=
  provider_failure_no_artifact _ _ _ _ _ (Or.inr (by decide))

/-! ## Upload removal -/

theorem beforeLast_of_not_mem {c : Char} {s : List Char} (h : c ∉ s) :
    beforeLast c s = s := by
  induction s with
  | nil => rfl
  | cons x xs ih =>
      simp only [List.mem_cons, not_or] at h
      have hx : ¬ x = c := fun he => h.1 he.symm
      simp [beforeLast, h.2, hx]

theorem beforeLast_append_afterLast {c : Char} {s : List Char} (h : c ∈ s) :
    beforeLast c s ++ c :: afterLast c s = s := by
  induction s with
  | nil => cases h
  | cons x xs ih =>
      by_cases hm : c ∈ xs
      · simp [beforeLast, afterLast, hm, ih hm]
      · have hx : x = c := by
          rcases List.mem_cons.mp h with h1 | h2
          · exact h1.symm
          · exact absurd h2 hm
        simp [beforeLast, afterLast, hm, hx]

theorem wavName_ne (u : List Char) : wavName u ≠ u := by
  by_cases hm : '.' ∈ u
  · intro he
    have hdecomp := beforeLast_append_afterLast hm
    rw [wavName] at he
    have h2 : beforeLast '.' u ++ "_converted.wav".toList
        = beforeLast '.' u ++ '.' :: afterLast '.' u := he.trans hdecomp.symm
    have h3 := (List.append_right_inj _).mp h2
    have h5 := congrArg (fun l => l.headD ' ') h3
    simp at h5
  · intro he
    rw [wavName, beforeLast_of_not_mem hm] at he
    have h2 := congrArg List.length he
    simp at h2

theorem engine_uploadLeft_ne (env : EngineEnv) (p : List Char) :
    p ∉ (engine_speech_to_text env p).uploadLeft := by
  unfold engine_speech_to_text
  by_cases hc : env.convertOk = true
  · cases hrec : env.recognized with
    | some t => simp [hc, hrec]
    | none =>
        simp [hc, hrec]
        exact fun h => wavName_ne p h.symm
  · simp only [Bool.not_eq_true] at hc
    simp [hc]

/-- Claim C7 counterexample: a cloning request with a wav upload whose mp3
re-encoding raises is caught only by the handler-level except, so the saved
upload is still in the upload folder when the handler returns. -/
theorem clone_conversion_failure_leaks_upload :
    (clone_voice_route (fun s => s) "ab12cd34".toList
        { convertOk := false, cloneResult := none }
        (some "sample.wav".toList) "My Voice".toList []).saved
      = ["ab12cd34_sample.wav".toList] ∧
    (clone_voice_route (fun s => s) "ab12cd34".toList
        { convertOk := false, cloneResult := none }
        (some "sample.wav".toList) "My Voice".toList []).uploadLeft
      = ["ab12cd34_sample.wav".toList] ∧
    (clone_voice_route (fun s => s) "ab12cd34".toList
        { convertOk := false, cloneResult := none }
        (some "sample.wav".toList) "My Voice".toList []).success = false :=
  ⟨rfl, rfl, rfl⟩

set_option maxRecDepth 4000 in
/-- Claim C7 (amended): the saved upload is never among the upload-folder
files a transcription request leaves behind, whether recognition succeeds or
fails; and a cloning request whose saved name already ends in .mp3, or whose
re-encoding succeeds, leaves the upload folder empty whatever the cloning
result. Only a raising re-encode of a non-mp3 clone upload leaks. -/
theorem uploads_removed_on_completed_paths (secure : List Char → List Char)
    (uuidHex : List Char) (envS : EngineEnv) (envC : CloneEnv)
    (f g vn vd : List Char)
    (hc : (".mp3".toList).isSuffixOf (uuidHex ++ "_".toList ++ secure g) = true ∨
          envC.convertOk = true) :
    (∀ x ∈ (speech_to_text_route secure uuidHex envS (some f)).saved,
        x ∉ (speech_to_text_route secure uuidHex envS (some f)).uploadLeft) ∧
    (clone_voice_route secure uuidHex envC (some g) vn vd).uploadLeft = [] := by
  constructor
  · intro x hx
    by_cases he : f.isEmpty = true
    · simp [speech_to_text_route, he] at hx
    · by_cases ha : allowed_file f = true
      · simp only [speech_to_text_route, he, ha, if_true, if_false,
          Bool.false_eq_true, apply_ite, ite_self, List.mem_singleton] at hx ⊢
        subst hx
        exact engine_uploadLeft_ne envS _
      · simp [speech_to_text_route, he, ha] at hx
  · by_cases he : g.isEmpty = true
    · simp [clone_voice_route, he]
    · by_cases hn : (strip vn).isEmpty = true
      · simp [clone_voice_route, he, hn]
      · by_cases ha : allowed_file g = true
        · by_cases hs : (".mp3".toList).isSuffixOf
              (uuidHex ++ "_".toList ++ secure g) = true
          · simp only [clone_voice_route, he, hn, ha, hs, Bool.false_eq_true,
              if_false, if_true]
            split <;> rfl
          · have hcv : envC.convertOk = true := by
              rcases hc with h | h
              · exact absurd h hs
              · exact h
            simp only [clone_voice_route, he, hn, ha, hs, hcv, Bool.not_true,
              Bool.false_eq_true, if_false, if_true]
            split <;> rfl
        · simp [clone_voice_route, he, hn, ha]

/-- Witness for the amended claim C7 at a concrete transcription request and a
concrete cloning request whose re-encoding succeeds. -/
theorem uploads_removed_on_completed_paths_witness :
    (∀ x ∈ (speech_to_text_route (fun s => s) "ab".toList
          { convertOk := true, recognized := none }
          (some "a.wav".toList)).saved,
        x ∉ (speech_to_text_route (fun s => s) "ab".toList
          { convertOk := true, recognized := none }
          (some "a.wav".toList)).uploadLeft) ∧
    (clone_voice_route (fun s => s) "ab".toList
        { convertOk := true, cloneResult := some "vid".toList }
        (some "b.wav".toList) "nm".toList []).uploadLeft = [] :=
  uploads_removed_on_completed_paths _ _ _ _ _ _ _ _ (Or.inr rfl)

/-! ## Download and request size limit -/

theorem lookup_none_iff_not_mem (folder : List (List Char × Bool))
    (k : List Char) :
    folder.lookup k = none ↔ k ∉ folder.map Prod.fst := by
  rw [List.lookup_eq_none_iff]
  simp only [bne_iff_ne, ne_eq, List.mem_map, not_exists, not_and]
  constructor
  · intro h p hp he
    exact h p hp he.symm
  · intro h p hp he
    exact h p hp he.symm

/-- Claim C8 counterexample: the route is reachable at the dot-segment
filename .. even though no file of that name exists in the output folder;
there os.path.exists holds of the parent directory, send_file raises on it
and the handler answers 500, where the claim demands 404. -/
theorem download_dotdot_returns_500 :
    (download_file [("elevenlabs_ab12cd34.mp3".toList, true)] "..".toList).1
      = 500 ∧
    "..".toList ∉ ([("elevenlabs_ab12cd34.mp3".toList, true)] :
        List (List Char × Bool)).map Prod.fst :=
  ⟨rfl, by decide⟩

/-- Claim C8 (amended): for every filename other than the dot segments . and
.. , the download route answers 404 exactly when no entry of that name exists
in the output folder, and streams the artifact with 200 exactly when the
entry of that name is a regular file (a directory entry makes send_file raise
and yields 500); at the dot segments themselves os.path.exists holds of a
directory and the handler answers 500. -/
theorem download_file_status_amended (folder : List (List Char × Bool))
    (fname : List Char) (h1 : fname ≠ ".".toList) (h2 : fname ≠ "..".toList) :
    ((download_file folder fname).1 = 404 ↔ fname ∉ folder.map Prod.fst) ∧
    ((download_file folder fname).1 = 200 ∧
        (download_file folder fname).2 = some fname ↔
      folder.lookup fname = some true) ∧
    (download_file folder ".".toList).1 = 500 ∧
    (download_file folder "..".toList).1 = 500 := by
  have hcond : ¬(fname = ".".toList ∨ fname = "..".toList) := by
    rintro (h | h)
    · exact h1 h
    · exact h2 h
  refine ⟨?_, ?_, by simp [download_file], by simp [download_file]⟩
  · rw [← lookup_none_iff_not_mem]
    unfold download_file
    rw [if_neg hcond]
    cases hl : folder.lookup fname with
    | none => simp
    | some b => cases b <;> simp
  · unfold download_file
    rw [if_neg hcond]
    cases hl : folder.lookup fname with
    | none => simp
    | some b => cases b <;> simp

/-- Witness for the amended claim C8 at a concrete folder holding one
generated artifact and one directory entry, probed with an absent name. -/
theorem download_file_status_amended_witness :
    ((download_file [("elevenlabs_ab12cd34.mp3".toList, true),
        ("sub".toList, false)] "missing.mp3".toList).1 = 404 ↔
      "missing.mp3".toList ∉ ([("elevenlabs_ab12cd34.mp3".toList, true),
        ("sub".toList, false)] : List (List Char × Bool)).map Prod.fst) ∧
    ((download_file [("elevenlabs_ab12cd34.mp3".toList, true),
        ("sub".toList, false)] "missing.mp3".toList).1 = 200 ∧
        (download_file [("elevenlabs_ab12cd34.mp3".toList, true),
          ("sub".toList, false)] "missing.mp3".toList).2
          = some "missing.mp3".toList ↔
      ([("elevenlabs_ab12cd34.mp3".toList, true),
        ("sub".toList, false)] : List (List Char × Bool)).lookup
          "missing.mp3".toList = some true) ∧
    (download_file [("elevenlabs_ab12cd34.mp3".toList, true),
        ("sub".toList, false)] ".".toList).1 = 500 ∧
    (download_file [("elevenlabs_ab12cd34.mp3".toList, true),
        ("sub".toList, false)] "..".toList).1 = 500 :=
  download_file_status_amended _ _ (by decide) (by decide)

/-- Claim C9 counterexample: adding engine, rate and volume fields to a
concrete generate_speech request changes nothing about its outcome; the route
ignores them entirely and there is no local engine to select. -/
theorem generate_speech_ignores_engine_rate_volume :
    generate_speech (fun _ => true) (some "k".toList)
        { status := 200, genName := "out.mp3".toList, detailMsg := none }
        [("text".toList, "hello".toList), ("voice_id".toList, "v".toList),
         ("engine".toList, "local".toList), ("rate".toList, "150".toList),
         ("volume".toList, "0.8".toList)]
      = generate_speech (fun _ => true) (some "k".toList)
        { status := 200, genName := "out.mp3".toList, detailMsg := none }
        [("text".toList, "hello".toList), ("voice_id".toList, "v".toList)] :=
  rfl

/-- Claim C9 (amended): the generate_speech route reads only the text,
voice_id, stability, similarity and style fields; two forms that agree on
these five lookups produce identical envelopes and identical provider
traffic, for every float parser, key and provider behaviour. -/
theorem generate_speech_reads_only_declared_fields (floatOk : List Char → Bool)
    (api_key : Option (List Char)) (env : ProviderEnv) (f g : FormData)
    (ht : f.lookup "text".toList = g.lookup "text".toList)
    (hv : f.lookup "voice_id".toList = g.lookup "voice_id".toList)
    (hs : f.lookup "stability".toList = g.lookup "stability".toList)
    (hm : f.lookup "similarity".toList = g.lookup "similarity".toList)
    (hy : f.lookup "style".toList = g.lookup "style".toList) :
    generate_speech floatOk api_key env f = generate_speech floatOk api_key env g := by
  simp only [generate_speech, formGet, floatFieldOk, ht, hv, hs, hm, hy]

/-- Witness for the amended claim C9 at two concrete forms differing only in
fields the route never reads. -/
theorem generate_speech_reads_only_declared_fields_witness :
    generate_speech (fun _ => true) none
        { status := 200, genName := "out.mp3".toList, detailMsg := none }
        [("text".toList, "hi".toList), ("rate".toList, "1".toList)]
      = generate_speech (fun _ => true) none
        { status := 200, genName := "out.mp3".toList, detailMsg := none }
        [("text".toList, "hi".toList), ("volume".toList, "2".toList)] :=
  generate_speech_reads_only_declared_fields _ _ _ _ _ rfl rfl rfl rfl rfl

/-- Claim C10: a request body strictly larger than the configured
MAX_CONTENT_LENGTH of sixteen mebibytes is refused before the handler runs,
one at or under the limit is admitted with its handler outcome, and the
configured limit is exactly 16 * 1024 * 1024 bytes. -/
theorem max_content_length_enforced {α : Type} (len : Nat) (handler : α) :
    (serveWithLimit len handler = none ↔ MAX_CONTENT_LENGTH < len) ∧
    (serveWithLimit len handler = some handler ↔ len ≤ MAX_CONTENT_LENGTH) ∧
    MAX_CONTENT_LENGTH = 16 * 1024 * 1024 := by
  unfold serveWithLimit
  by_cases h : len ≤ MAX_CONTENT_LENGTH
  · simp [h, MAX_CONTENT_LENGTH] at *
  · simp [h, MAX_CONTENT_LENGTH] at *
